import Mathlib

/-!
Verification of the EcoSprout derived-metrics engine.

The numeric model: JavaScript numbers are modelled as exact rationals (`ℚ`)
wherever the source performs only field operations on well-guarded values.
Where the source can produce the IEEE special values `NaN` / `Infinity`
(the harvest-efficiency scorer divides by a possibly-zero mean, the score
card divides by a possibly-zero field size, and `Math.sqrt` is involved),
values are modelled by `JsVal`, a tagged real number with the three special
values and JS arithmetic on them.

Dates: the source reduces every date to local midnight with
`new Date(d).setHours(0,0,0,0)` (an epoch-millisecond integer) before any
comparison, so a date is modelled as that integer (`ℤ`).  For the financial
code only `getFullYear()` and `getMonth()` of an entry date are ever used,
so entries carry those two projections directly.
-/

/-- The idiom `s.toLowerCase().includes(pat)` (every `includes` call in the
source lower-cases its receiver first, with an already-lowercase literal
pattern): `pat` occurs as a contiguous substring of the lower-cased `s`. -/
def strContains (s pat : String) : Bool :=
  (s.data.map Char.toLower).tails.any (fun t => pat.data.isPrefixOf t)

/-- The test used throughout the source:
`s.toLowerCase().includes("rain")`. -/
def hasRain (s : String) : Bool := strContains s "rain"

/-- A water-usage log entry (`WaterUsage` in `farmTypes.ts`): `amount` and
the application date at midnight (epoch ms). -/
structure WaterUsage where
  amount : ℚ
  date : ℤ
deriving DecidableEq

/-- A fertilizer application (`FertilizerUsage` in `farmTypes.ts`). -/
structure FertilizerUsage where
  type : String
  amount : ℚ
  date : ℤ
deriving DecidableEq

/-- A harvest record (`Harvest` in `farmTypes.ts`). -/
structure Harvest where
  amount : ℚ
  date : ℤ
deriving DecidableEq

/-- A crop-rotation entry (`CropRotation` in `farmTypes.ts`).  The scorers
read only `crop` and the list length; the date strings are carried opaquely. -/
structure CropRotation where
  crop : String
  startDate : String
  endDate : String
deriving DecidableEq

/-- One weather observation (`WeatherData`): date at midnight (epoch ms),
high temperature, and the free-text condition label. -/
structure WeatherData where
  date : ℤ
  temp : ℚ
  weather : String
deriving DecidableEq

/-- A cultivated entity (`Farm` in `farmTypes.ts`).  `rotationHistory` is
optional in the source but every use guards with
`farm.rotationHistory && farm.rotationHistory.length`, which behaves
identically for `undefined` and `[]`, so it is a plain list here.
`organicMatter` and `soilPH` are optional numbers. -/
structure Farm where
  id : ℤ
  waterHistory : List WaterUsage
  fertilizerHistory : List FertilizerUsage
  harvestHistory : List Harvest
  rotationHistory : List CropRotation
  organicMatter : Option ℚ
  soilPH : Option ℚ
deriving DecidableEq

/-- The weather lookup both efficiency calculators use:
`weatherData.find(w => new Date(w.date).setHours(0,0,0,0) === d)`. -/
def findWeatherOn (weatherData : List WeatherData) (d : ℤ) : Option WeatherData :=
  weatherData.find? (fun w => w.date == d)

/-- Whether an optional weather observation has a condition label containing
`"rain"` (case-insensitively); `none` (no observation found) gives `false`,
matching `dayWeather?.weather.toLowerCase().includes('rain')`. -/
def rainOpt (o : Option WeatherData) : Bool :=
  match o with
  | some w => hasRain w.weather
  | none => false

/-- The single-application water-efficiency score
(`calculateWaterEfficiency` in `src/artifacts/utilities.ts`): start at 100,
multiply by 0.5 on same-day rain, by 0.7 on previous-day rain, and — only
when `dayWeather?.temp` is truthy, i.e. present and nonzero — by 0.9 when
temp > 30 or by 0.95 when temp < 10. -/
def calculateWaterEfficiencySingle (u : WaterUsage) (weatherData : List WeatherData) : ℚ :=
  let dayWeather := findWeatherOn weatherData u.date
  let previousDayWeather := findWeatherOn weatherData (u.date - 86400000)
  let s0 : ℚ := 100
  let s1 : ℚ := if rainOpt dayWeather then s0 * 0.5 else s0
  let s2 : ℚ := if rainOpt previousDayWeather then s1 * 0.7 else s1
  match dayWeather with
  | some w =>
      if w.temp ≠ 0 then
        (if w.temp > 30 then s2 * 0.9 else if w.temp < 10 then s2 * 0.95 else s2)
      else s2
  | none => s2

/-- The history-based water-efficiency score (`calculateWaterEfficiency` in
the main dashboard component): empty history scores 0, otherwise only the
most recent application (`waterHistory[waterHistory.length - 1]`) is scored,
with the same body as the single-application form. -/
def calculateWaterEfficiency (waterHistory : List WaterUsage)
    (weatherData : List WeatherData) : ℚ :=
  match waterHistory.getLast? with
  | none => 0
  | some u => calculateWaterEfficiencySingle u weatherData

/-- `calculateSoilQualityScore`: base 70, plus `organicMatter * 5` when that
field is truthy (present and nonzero), minus `|soilPH - 6.5| * 5` when
`soilPH` is truthy, plus `min 15 (rotationCount * 5)` when the rotation
history is non-empty, clamped by `Math.max(0, Math.min(100, score))`. -/
def calculateSoilQualityScore (farm : Farm) : ℚ :=
  let s0 : ℚ := 70
  let s1 : ℚ :=
    match farm.organicMatter with
    | some om => if om ≠ 0 then s0 + om * 5 else s0
    | none => s0
  let s2 : ℚ :=
    match farm.soilPH with
    | some ph => if ph ≠ 0 then s1 - |ph - 6.5| * 5 else s1
    | none => s1
  let s3 : ℚ :=
    if farm.rotationHistory ≠ [] then
      s2 + min 15 ((farm.rotationHistory.length : ℚ) * 5)
    else s2
  max 0 (min 100 s3)

/-- Fertilizer types classified as organic: type label contains
`"organic"`, `"manure"` or `"compost"` (case-insensitively). -/
def isOrganicFertilizer (f : FertilizerUsage) : Bool :=
  strContains f.type "organic" || strContains f.type "manure" ||
    strContains f.type "compost"

/-- `calculateOrganicScore`: base 70; with any fertilizer recorded, add
`organicPercentage * 20` and, when chemical amount is positive, subtract
`min 30 ((chemicalAmount / 1000) * 10)`; add `min 10 (rotationCount * 2)`
for a non-empty rotation history; add 10 when at least three organic
applications are recorded; clamp with `Math.min(100, Math.max(0, score))`. -/
def calculateOrganicScore (farm : Farm) : ℚ :=
  let totalFertilizerAmount : ℚ := (farm.fertilizerHistory.map (·.amount)).sum
  let organicFertilizers := farm.fertilizerHistory.filter isOrganicFertilizer
  let organicFertilizerAmount : ℚ := (organicFertilizers.map (·.amount)).sum
  let s0 : ℚ := 70
  let s1 : ℚ :=
    if totalFertilizerAmount > 0 then
      let organicPercentage := organicFertilizerAmount / totalFertilizerAmount
      let s := s0 + organicPercentage * 20
      let chemicalFertilizerAmount := totalFertilizerAmount - organicFertilizerAmount
      if chemicalFertilizerAmount > 0 then
        s - min 30 ((chemicalFertilizerAmount / 1000) * 10)
      else s
    else s0
  let s2 : ℚ :=
    if farm.rotationHistory ≠ [] then
      s1 + min 10 ((farm.rotationHistory.length : ℚ) * 2)
    else s1
  let s3 : ℚ := if organicFertilizers.length ≥ 3 then s2 + 10 else s2
  min 100 (max 0 s3)

/-- `calculateRotationScore`: 0 for an empty history, else
`min 100 (count * 20)` plus `min 20 (uniqueCrops * 5)`, re-clamped at 100. -/
def calculateRotationScore (farm : Farm) : ℚ :=
  if farm.rotationHistory = [] then 0
  else
    let s : ℚ := min 100 ((farm.rotationHistory.length : ℚ) * 20)
    let uniqueCrops := ((farm.rotationHistory.map (·.crop)).dedup).length
    min 100 (s + min 20 ((uniqueCrops : ℚ) * 5))

/-- A JavaScript number: NaN, one of the two infinities, or a finite value
(idealized as an exact real). -/
inductive JsVal where
  | nan : JsVal
  | posInf : JsVal
  | negInf : JsVal
  | fin : ℝ → JsVal

namespace JsVal

/-- JS addition. -/
noncomputable def jsAdd : JsVal → JsVal → JsVal
  | nan, _ => nan
  | _, nan => nan
  | posInf, negInf => nan
  | negInf, posInf => nan
  | posInf, _ => posInf
  | _, posInf => posInf
  | negInf, _ => negInf
  | _, negInf => negInf
  | fin a, fin b => fin (a + b)

/-- JS unary minus. -/
noncomputable def jsNeg : JsVal → JsVal
  | nan => nan
  | posInf => negInf
  | negInf => posInf
  | fin a => fin (-a)

/-- JS subtraction, `a - b = a + (-b)`. -/
noncomputable def jsSub (a b : JsVal) : JsVal := jsAdd a (jsNeg b)

open Classical in
/-- JS multiplication. -/
noncomputable def jsMul : JsVal → JsVal → JsVal
  | nan, _ => nan
  | _, nan => nan
  | posInf, posInf => posInf
  | posInf, negInf => negInf
  | negInf, posInf => negInf
  | negInf, negInf => posInf
  | posInf, fin b => if b = 0 then nan else if 0 < b then posInf else negInf
  | fin a, posInf => if a = 0 then nan else if 0 < a then posInf else negInf
  | negInf, fin b => if b = 0 then nan else if 0 < b then negInf else posInf
  | fin a, negInf => if a = 0 then nan else if 0 < a then negInf else posInf
  | fin a, fin b => fin (a * b)

open Classical in
/-- JS division. -/
noncomputable def jsDiv : JsVal → JsVal → JsVal
  | nan, _ => nan
  | _, nan => nan
  | posInf, posInf => nan
  | posInf, negInf => nan
  | negInf, posInf => nan
  | negInf, negInf => nan
  | posInf, fin b => if b < 0 then negInf else posInf
  | negInf, fin b => if b < 0 then posInf else negInf
  | fin _, posInf => fin 0
  | fin _, negInf => fin 0
  | fin a, fin b =>
      if b = 0 then (if a = 0 then nan else if 0 < a then posInf else negInf)
      else fin (a / b)

/-- JS `Math.max` (two arguments): NaN-propagating maximum. -/
noncomputable def jsMax : JsVal → JsVal → JsVal
  | nan, _ => nan
  | _, nan => nan
  | posInf, _ => posInf
  | _, posInf => posInf
  | negInf, v => v
  | v, negInf => v
  | fin a, fin b => fin (max a b)

/-- JS `Math.min` (two arguments): NaN-propagating minimum. -/
noncomputable def jsMin : JsVal → JsVal → JsVal
  | nan, _ => nan
  | _, nan => nan
  | negInf, _ => negInf
  | _, negInf => negInf
  | posInf, v => v
  | v, posInf => v
  | fin a, fin b => fin (min a b)

/-- JS `Math.round` on a finite value: `⌊x + 1/2⌋`; the special values map
to themselves. -/
noncomputable def jsRoundV : JsVal → JsVal
  | fin a => fin ((⌊a + 1/2⌋ : ℤ) : ℝ)
  | v => v

/-- The JS comparison `v > 0` (false for NaN). -/
def jsPos : JsVal → Prop
  | fin a => 0 < a
  | posInf => True
  | negInf => False
  | nan => False

open Classical in
/-- The idiom `v || 0`: a falsy number (0 or NaN) becomes 0. -/
noncomputable def orZero : JsVal → JsVal
  | nan => fin 0
  | fin a => if a = 0 then fin 0 else fin a
  | v => v

/-- A value that is either finite or NaN (everything the clamped scorers
can produce). -/
def isFinOrNan (v : JsVal) : Prop := (∃ x, v = fin x) ∨ v = nan

end JsVal

open JsVal

/-- `calculateHarvestEfficiency`: 0 on an empty history; otherwise start at
100, subtract 20 times the coefficient of yield variation
(`sqrt(populationVariance) / mean`, JS division so a zero mean yields
Infinity or NaN), subtract a flat 5 for every harvest whose day has a
rain-labelled observation, and clamp with `Math.min(100, Math.max(0, s))`.
The mean and the population variance of the (rational) yield amounts are
themselves rational; only the square root and the possibly-degenerate
division need real/JS arithmetic. -/
noncomputable def calculateHarvestEfficiency (farm : Farm)
    (weatherData : List WeatherData) : JsVal :=
  if farm.harvestHistory = [] then .fin 0
  else
    let yields : List ℚ := farm.harvestHistory.map (·.amount)
    let avgYield : ℚ := yields.sum / yields.length
    let variance : ℚ := (yields.map (fun y => (y - avgYield) ^ 2)).sum / yields.length
    let yieldVariation : JsVal :=
      jsDiv (.fin (Real.sqrt (variance : ℝ))) (.fin (avgYield : ℝ))
    let s0 : JsVal := jsSub (.fin 100) (jsMul yieldVariation (.fin 20))
    let s1 : JsVal := farm.harvestHistory.foldl
      (fun s h => if rainOpt (findWeatherOn weatherData h.date) then jsSub s (.fin 5) else s)
      s0
    jsMin (.fin 100) (jsMax (.fin 0) s1)

/-- The five sustainability sub-metrics of `calculateSustainabilityMetrics`. -/
inductive MetricKey where
  | water
  | organic
  | harvest
  | soil
  | rotation
deriving DecidableEq

/-- The per-farm sub-metric values the aggregator works from
(`farms.map(farm => ({...}))` in `calculateSustainabilityMetrics`); the four
rational scorers enter as finite JS numbers. -/
noncomputable def keyVals (k : MetricKey) (farms : List Farm)
    (weatherData : List WeatherData) : List JsVal :=
  match k with
  | .water => farms.map (fun f => .fin ((calculateWaterEfficiency f.waterHistory weatherData : ℚ) : ℝ))
  | .organic => farms.map (fun f => .fin ((calculateOrganicScore f : ℚ) : ℝ))
  | .harvest => farms.map (fun f => calculateHarvestEfficiency f weatherData)
  | .soil => farms.map (fun f => .fin ((calculateSoilQualityScore f : ℚ) : ℝ))
  | .rotation => farms.map (fun f => .fin ((calculateRotationScore f : ℚ) : ℝ))

open Classical in
/-- How many entries of a metric-value list the aggregator counts as having
data (`if (value > 0) { ...; metricCounts[key]++ }`). -/
noncomputable def posCount (l : List JsVal) : ℕ :=
  l.foldr (fun v n => if jsPos v then n + 1 else n) 0

open Classical in
/-- The accumulated sum of the counted values
(`avgMetrics[key] = (avgMetrics[key] || 0) + value`). -/
noncomputable def posSum (l : List JsVal) : JsVal :=
  l.foldr (fun v s => if jsPos v then jsAdd v s else s) (.fin 0)

/-- The aggregator weights. -/
noncomputable def keyWeight : MetricKey → ℝ
  | .water => 0.25
  | .organic => 0.20
  | .harvest => 0.20
  | .soil => 0.20
  | .rotation => 0.15

noncomputable def keyCount (k : MetricKey) (farms : List Farm)
    (weatherData : List WeatherData) : ℕ :=
  posCount (keyVals k farms weatherData)

/-- The reported per-metric average: `avgMetrics[key] /= metricCounts[key]`
when the count is positive, else the metric is zeroed. -/
noncomputable def keyAvg (k : MetricKey) (farms : List Farm)
    (weatherData : List WeatherData) : JsVal :=
  if 0 < keyCount k farms weatherData then
    jsDiv (posSum (keyVals k farms weatherData)) (.fin (keyCount k farms weatherData : ℝ))
  else .fin 0

/-- One metric's contribution to the overall score
(`overallScore += avgMetrics[key] * weights[key]`). -/
noncomputable def keyTerm (k : MetricKey) (farms : List Farm)
    (weatherData : List WeatherData) : JsVal :=
  if 0 < keyCount k farms weatherData then
    jsMul (keyAvg k farms weatherData) (.fin (keyWeight k))
  else .fin 0

/-- The sum of the weights actually used (`totalWeight += weights[key]`). -/
noncomputable def totalWeightUsed (farms : List Farm)
    (weatherData : List WeatherData) : ℝ :=
  (if 0 < keyCount .water farms weatherData then keyWeight .water else 0) +
  (if 0 < keyCount .organic farms weatherData then keyWeight .organic else 0) +
  (if 0 < keyCount .harvest farms weatherData then keyWeight .harvest else 0) +
  (if 0 < keyCount .soil farms weatherData then keyWeight .soil else 0) +
  (if 0 < keyCount .rotation farms weatherData then keyWeight .rotation else 0)

/-- The weighted sum over the metrics with data. -/
noncomputable def overallRaw (farms : List Farm)
    (weatherData : List WeatherData) : JsVal :=
  jsAdd (jsAdd (jsAdd (jsAdd (keyTerm .water farms weatherData)
    (keyTerm .organic farms weatherData)) (keyTerm .harvest farms weatherData))
    (keyTerm .soil farms weatherData)) (keyTerm .rotation farms weatherData)

open Classical in
/-- The overall score before rounding: renormalized by the used weight when
that weight is strictly between 0 and 1. -/
noncomputable def overallScoreVal (farms : List Farm)
    (weatherData : List WeatherData) : JsVal :=
  if 0 < totalWeightUsed farms weatherData ∧ totalWeightUsed farms weatherData < 1 then
    jsDiv (overallRaw farms weatherData) (.fin (totalWeightUsed farms weatherData))
  else overallRaw farms weatherData

/-- The rounded metric record `calculateSustainabilityMetrics` returns. -/
structure SustainabilityMetrics where
  overallScore : JsVal
  waterEfficiency : JsVal
  organicScore : JsVal
  harvestEfficiency : JsVal
  soilQualityScore : JsVal
  rotationScore : JsVal

/-- `calculateSustainabilityMetrics` (farm-level aggregator in the main
dashboard component): `null` when the farm list or the weather series is
empty, otherwise the rounded overall and per-metric averages. -/
noncomputable def calculateSustainabilityMetrics (farms : List Farm)
    (weatherData : List WeatherData) : Option SustainabilityMetrics :=
  if farms = [] ∨ weatherData = [] then none
  else some
    { overallScore := jsRoundV (overallScoreVal farms weatherData)
      waterEfficiency := jsRoundV (keyAvg .water farms weatherData)
      organicScore := jsRoundV (keyAvg .organic farms weatherData)
      harvestEfficiency := jsRoundV (keyAvg .harvest farms weatherData)
      soilQualityScore := jsRoundV (keyAvg .soil farms weatherData)
      rotationScore := jsRoundV (keyAvg .rotation farms weatherData) }

/-- The field of the result record a metric key names. -/
def keyField (k : MetricKey) (m : SustainabilityMetrics) : JsVal :=
  match k with
  | .water => m.waterEfficiency
  | .organic => m.organicScore
  | .harvest => m.harvestEfficiency
  | .soil => m.soilQualityScore
  | .rotation => m.rotationScore

/-- A field as the `SustainabilityScoreCard` component sees it.  The
`size` field of the TS interface is a string that is only ever consumed as
`parseFloat(field.size)`; it is modelled directly by that numeric result
(NaN for an unparseable string). -/
structure FarmField where
  id : ℤ
  size : JsVal
  waterHistory : List WaterUsage
  fertilizerHistory : List FertilizerUsage
  harvestHistory : List Harvest

/-- `calculateFieldMetrics` in `SustainabilityScoreCard.tsx`: the per-field
(water, organic, harvest) triple.  Each per-usage efficiency is the
single-application water score, which is strictly positive, so the JS
fallbacks `usage.efficiency || 0` and `usage.efficiency || 100` never fire
and are inlined away. -/
noncomputable def calculateFieldMetrics (field : FarmField)
    (weatherData : List WeatherData) : JsVal × JsVal × JsVal :=
  let effs : List ℚ := field.waterHistory.map
    (fun u => calculateWaterEfficiencySingle u weatherData)
  let avgWaterEfficiency : ℚ :=
    if 0 < effs.length then effs.sum / effs.length else 100
  let fieldSize := field.size
  let totalWaterUsage : ℚ := (field.waterHistory.map
    (fun u => u.amount * calculateWaterEfficiencySingle u weatherData / 100)).sum
  let waterPerAcre := orZero (jsDiv (.fin (totalWaterUsage : ℝ)) fieldSize)
  let waterEfficiency := jsMin (.fin 100) (jsMax (.fin 0)
    (jsSub (.fin 100) (jsDiv waterPerAcre (.fin 100))))
  let totalFertilizer : ℚ := (field.fertilizerHistory.map (·.amount)).sum
  let fertilizerPerAcre := orZero (jsDiv (.fin (totalFertilizer : ℝ)) fieldSize)
  let organicScore := jsMin (.fin 100) (jsMax (.fin 0)
    (jsSub (.fin 100) (jsDiv fertilizerPerAcre (.fin 10))))
  let totalWeatherAdjustedHarvest : ℚ := (field.harvestHistory.map (fun h =>
    match findWeatherOn weatherData h.date with
    | none => h.amount
    | some w =>
        let m1 : ℚ := if hasRain w.weather then 0.9 else 1
        let m2 : ℚ := if w.temp > 35 then m1 * 0.95 else m1
        h.amount * m2)).sum
  let harvestPerAcre := orZero (jsDiv (.fin (totalWeatherAdjustedHarvest : ℝ)) fieldSize)
  let harvestEfficiency := jsMin (.fin 100) (jsMax (.fin 0)
    (jsMul (jsDiv harvestPerAcre (.fin 50)) (.fin 100)))
  (jsMul waterEfficiency (jsDiv (.fin (avgWaterEfficiency : ℝ)) (.fin 100)),
    organicScore, harvestEfficiency)

/-- Left fold of JS addition, `reduce((sum, v) => sum + v, 0)`. -/
noncomputable def jsSumL (l : List JsVal) : JsVal := l.foldl jsAdd (.fin 0)

/-- The weighted pre-adjustment score of the score card:
`avgWater*0.4 + avgOrganic*0.4 + avgHarvest*0.2` over the per-field
metric averages. -/
noncomputable def scorecardBase (fields : List FarmField)
    (weatherData : List WeatherData) : JsVal :=
  let ms := fields.map (fun f => calculateFieldMetrics f weatherData)
  let n : ℝ := fields.length
  let avgWaterEfficiency := jsDiv (jsSumL (ms.map (·.1))) (.fin n)
  let avgOrganicScore := jsDiv (jsSumL (ms.map (·.2.1))) (.fin n)
  let avgHarvestEfficiency := jsDiv (jsSumL (ms.map (·.2.2))) (.fin n)
  jsAdd (jsAdd (jsMul avgWaterEfficiency (.fin 0.4))
    (jsMul avgOrganicScore (.fin 0.4))) (jsMul avgHarvestEfficiency (.fin 0.2))

/-- The final weather adjustment of the score card, computed from the
current observation `weatherData[0]`: set to 0.95 when the current label
contains rain, and multiplied by a further 0.95 when the current
temperature is above 35 or below 5. -/
def weatherMultiplier (weatherData : List WeatherData) : ℚ :=
  match weatherData.head? with
  | none => 1
  | some w =>
      let m1 : ℚ := if hasRain w.weather then 0.95 else 1
      if w.temp > 35 ∨ w.temp < 5 then m1 * 0.95 else m1

open Classical in
/-- The overall score the `SustainabilityScoreCard` component displays:
`Math.round((avgW*0.4 + avgO*0.4 + avgH*0.2) * weatherMultiplier)`, and
no render (`null`) when the field list or weather series is empty. -/
noncomputable def scorecardOverallScore (fields : List FarmField)
    (weatherData : List WeatherData) : Option JsVal :=
  if fields = [] ∨ weatherData = [] then none
  else some (jsRoundV (jsMul (scorecardBase fields weatherData)
    (.fin ((weatherMultiplier weatherData : ℚ) : ℝ))))

/-- Income or expense, the `category` field of a financial entry. -/
inductive EntryCategory where
  | income
  | expense
deriving DecidableEq, BEq

/-- A financial transaction (`FinancialEntry` in `financialTypes.ts`).
The summary reads only `getFullYear()` and `getMonth()` of the date, which
are carried directly as `year` and `month`. -/
structure FinancialEntry where
  id : ℤ
  farmId : ℤ
  year : ℤ
  month : ℕ
  type : String
  amount : ℚ
  category : EntryCategory
deriving DecidableEq

/-- The entries of the selected year (`yearData` in the `yearSummary`
memo of `FinancialPlanning.tsx`). -/
def yearData (entries : List FinancialEntry) (selectedYear : ℤ) : List FinancialEntry :=
  entries.filter (fun e => e.year == selectedYear)

/-- `totalIncome`: the summed amounts of the selected year's income entries. -/
def totalIncome (entries : List FinancialEntry) (selectedYear : ℤ) : ℚ :=
  (((yearData entries selectedYear).filter (fun e => e.category == .income)).map
    (·.amount)).sum

/-- `totalExpenses`: the summed amounts of the selected year's expense entries. -/
def totalExpenses (entries : List FinancialEntry) (selectedYear : ℤ) : ℚ :=
  (((yearData entries selectedYear).filter (fun e => e.category == .expense)).map
    (·.amount)).sum

/-- `netProfit = totalIncome - totalExpenses`. -/
def netProfit (entries : List FinancialEntry) (selectedYear : ℤ) : ℚ :=
  totalIncome entries selectedYear - totalExpenses entries selectedYear

/-- `roi`: `totalExpenses > 0 ? ((totalIncome - totalExpenses) / totalExpenses) * 100 : 0`. -/
def roi (entries : List FinancialEntry) (selectedYear : ℤ) : ℚ :=
  if totalExpenses entries selectedYear > 0 then
    (totalIncome entries selectedYear - totalExpenses entries selectedYear) /
      totalExpenses entries selectedYear * 100
  else 0

/-- Per-farm rollup (`farmSummaries`): id, income, expenses, profit. -/
def farmSummaries (farms : List Farm) (entries : List FinancialEntry)
    (selectedYear : ℤ) : List (ℤ × ℚ × ℚ × ℚ) :=
  farms.map (fun farm =>
    let farmEntries := (yearData entries selectedYear).filter (fun e => e.farmId == farm.id)
    let farmIncome := ((farmEntries.filter (fun e => e.category == .income)).map (·.amount)).sum
    let farmExpenses := ((farmEntries.filter (fun e => e.category == .expense)).map (·.amount)).sum
    (farm.id, farmIncome, farmExpenses, farmIncome - farmExpenses))

/-- Per-month rollup (`monthlyData`): (income, expenses, profit) for each of
the twelve months of the selected year. -/
def monthlyData (entries : List FinancialEntry) (selectedYear : ℤ) : List (ℚ × ℚ × ℚ) :=
  (List.range 12).map (fun month =>
    let monthEntries := (yearData entries selectedYear).filter (fun e => e.month == month)
    let monthIncome := ((monthEntries.filter (fun e => e.category == .income)).map (·.amount)).sum
    let monthExpenses := ((monthEntries.filter (fun e => e.category == .expense)).map (·.amount)).sum
    (monthIncome, monthExpenses, monthIncome - monthExpenses))

/-- The per-type income breakdown (`incomeByCategory`), viewed as the map
from a type label to its accumulated total. -/
def incomeByType (entries : List FinancialEntry) (selectedYear : ℤ) (t : String) : ℚ :=
  (((yearData entries selectedYear).filter
    (fun e => e.category == .income && e.type == t)).map (·.amount)).sum

/-- The per-type expense breakdown (`expensesByCategory`), viewed as the map
from a type label to its accumulated total. -/
def expensesByType (entries : List FinancialEntry) (selectedYear : ℤ) (t : String) : ℚ :=
  (((yearData entries selectedYear).filter
    (fun e => e.category == .expense && e.type == t)).map (·.amount)).sum

/-- A financial goal (`FinancialGoal`).  Only the deadline's year is ever
read (`new Date(goal.deadline).getFullYear()`), carried as `deadlineYear`.
The progress field is a full JS number (`JsVal`): the recomputation divides
by `goal.amount` without a zero guard, so a zero target produces NaN or an
infinity rather than an ordinary number. -/
structure FinancialGoal where
  id : ℤ
  title : String
  amount : ℚ
  deadlineYear : ℤ
  progress : JsVal

/-- The `updatedGoals` computation of the `yearSummary` memo: goals whose
deadline year is the selected year get their progress recomputed from the
summary by a keyword cascade on the lower-cased title; all other goals are
returned unchanged.  The division by `goal.amount` is unguarded in the
source, so it is modelled by JS division (`jsDiv`): a zero target makes it
NaN or an infinity, and `Math.min` (`jsMin`) propagates NaN. -/
noncomputable def updateGoalProgress (goals : List FinancialGoal) (selectedYear : ℤ)
    (totalIncomeV totalExpensesV netProfitV : ℚ) : List FinancialGoal :=
  goals.map (fun goal =>
    if goal.deadlineYear == selectedYear then
      if strContains goal.title "revenue" || strContains goal.title "income" then
        { goal with progress := (jsMin (.fin 100)
            (jsMul (jsDiv (.fin (totalIncomeV : ℝ)) (.fin (goal.amount : ℝ))) (.fin 100))) }
      else if strContains goal.title "cost" || strContains goal.title "expense" then
        let targetReduction := goal.amount
        let costSavings : ℚ := max 0 (targetReduction - totalExpensesV)
        { goal with progress := (jsMin (.fin 100)
            (jsMul (jsDiv (.fin (costSavings : ℝ)) (.fin (targetReduction : ℝ))) (.fin 100))) }
      else
        { goal with progress := (jsMin (.fin 100)
            (jsMul (jsDiv (.fin (netProfitV : ℝ)) (.fin (goal.amount : ℝ))) (.fin 100))) }
    else goal)

open JsVal in
/-- The value is an ordinary (finite) number lying in `[0, 100]` — the range
the specification asserts for every scorer output. -/
def inRange01 (v : JsVal) : Prop := ∃ x, v = JsVal.fin x ∧ 0 ≤ x ∧ x ≤ 100

/-- The temperature factor of the water-efficiency contract as the claim
states it: 0.9 whenever the same-day high temp is above 30 and 0.95
whenever it is below 10, with no further condition. -/
def tempFactorClaim (o : Option WeatherData) : ℚ :=
  match o with
  | some w => if w.temp > 30 then 0.9 else if w.temp < 10 then 0.95 else 1
  | none => 1

/-- The temperature factor the code actually applies: as `tempFactorClaim`,
but only when the observed temperature is truthy (nonzero). -/
def tempFactorAmended (o : Option WeatherData) : ℚ :=
  match o with
  | some w =>
      if w.temp ≠ 0 then
        (if w.temp > 30 then 0.9 else if w.temp < 10 then 0.95 else 1)
      else 1
  | none => 1

/-- The water-efficiency formula exactly as the claim words it. -/
def waterSpecClaim (u : WaterUsage) (weatherData : List WeatherData) : ℚ :=
  100 * (if rainOpt (findWeatherOn weatherData u.date) then 0.5 else 1) *
    (if rainOpt (findWeatherOn weatherData (u.date - 86400000)) then 0.7 else 1) *
    tempFactorClaim (findWeatherOn weatherData u.date)

/-- The soil-quality formula exactly as the claim words it: the pH penalty
applies whenever the pH attribute is present, `including when the present pH
value is 0`. -/
def soilSpecClaim (om ph : Option ℚ) (rotationCount : ℕ) : ℚ :=
  let s : ℚ := 70 + (match om with | some v => v * 5 | none => 0) -
    (match ph with | some v => |v - 6.5| * 5 | none => 0) +
    min 15 ((rotationCount : ℚ) * 5)
  max 0 (min 100 s)

/-- The soil-quality formula as amended: the organic-matter bonus and the
pH penalty apply only when the attribute is present with a nonzero value. -/
def soilSpecAmended (om ph : Option ℚ) (rotationCount : ℕ) : ℚ :=
  let s : ℚ := 70 +
    (match om with | some v => if v ≠ 0 then v * 5 else 0 | none => 0) -
    (match ph with | some v => if v ≠ 0 then |v - 6.5| * 5 else 0 | none => 0) +
    min 15 ((rotationCount : ℚ) * 5)
  max 0 (min 100 s)

/-- The per-goal progress formula exactly as the claim words it: a
case-insensitive keyword cascade on the title, in the same JS numeric
semantics as the code (unguarded division, NaN-propagating `Math.min`). -/
noncomputable def goalProgressSpec (goal : FinancialGoal)
    (totalIncomeV totalExpensesV netProfitV : ℚ) : JsVal :=
  if strContains goal.title "revenue" || strContains goal.title "income" then
    jsMin (.fin 100)
      (jsMul (jsDiv (.fin (totalIncomeV : ℝ)) (.fin (goal.amount : ℝ))) (.fin 100))
  else if strContains goal.title "cost" || strContains goal.title "expense" then
    jsMin (.fin 100)
      (jsMul (jsDiv (.fin ((max 0 (goal.amount - totalExpensesV) : ℚ) : ℝ))
        (.fin (goal.amount : ℝ))) (.fin 100))
  else
    jsMin (.fin 100)
      (jsMul (jsDiv (.fin (netProfitV : ℝ)) (.fin (goal.amount : ℝ))) (.fin 100))

/-- The ROI contract exactly as the claim words it: a numeric ratio when
expenses are positive and an undefined/N-A sentinel (`none`) when the
selected year's expenses total zero. -/
def roiSpecClaim (entries : List FinancialEntry) (selectedYear : ℤ) : Option ℚ :=
  if totalExpenses entries selectedYear > 0 then
    some ((totalIncome entries selectedYear - totalExpenses entries selectedYear) /
      totalExpenses entries selectedYear * 100)
  else none

/-! ## Lemmas and verification of the claims -/

namespace JsVal

@[simp] theorem jsAdd_fin_fin (a b : ℝ) : jsAdd (fin a) (fin b) = fin (a + b) := rfl

@[simp] theorem jsNeg_fin (a : ℝ) : jsNeg (fin a) = fin (-a) := rfl

@[simp] theorem jsSub_fin_fin (a b : ℝ) : jsSub (fin a) (fin b) = fin (a - b) := by
  simp [jsSub, sub_eq_add_neg]

@[simp] theorem jsSub_fin_posInf (a : ℝ) : jsSub (fin a) posInf = negInf := rfl

@[simp] theorem jsSub_negInf_fin (a : ℝ) : jsSub negInf (fin a) = negInf := rfl

@[simp] theorem jsSub_fin_nan (a : ℝ) : jsSub (fin a) nan = nan := rfl

@[simp] theorem jsMul_fin_fin (a b : ℝ) : jsMul (fin a) (fin b) = fin (a * b) := rfl

theorem jsMul_posInf_fin_pos {b : ℝ} (hb : 0 < b) : jsMul posInf (fin b) = posInf := by
  simp [jsMul, hb, hb.ne.symm]

@[simp] theorem jsMul_nan (v : JsVal) : jsMul nan v = nan := by cases v <;> rfl

theorem jsDiv_fin_fin {b : ℝ} (a : ℝ) (hb : b ≠ 0) :
    jsDiv (fin a) (fin b) = fin (a / b) := by
  simp [jsDiv, hb]

@[simp] theorem jsDiv_fin_zero_zero : jsDiv (fin 0) (fin 0) = nan := by
  simp [jsDiv]

theorem jsDiv_fin_pos_zero {a : ℝ} (ha : 0 < a) : jsDiv (fin a) (fin 0) = posInf := by
  simp [jsDiv, ha, ha.ne.symm]

@[simp] theorem jsMax_fin_fin (a b : ℝ) : jsMax (fin a) (fin b) = fin (max a b) := rfl

@[simp] theorem jsMax_fin_nan (a : ℝ) : jsMax (fin a) nan = nan := rfl

@[simp] theorem jsMax_fin_negInf (a : ℝ) : jsMax (fin a) negInf = fin a := rfl

@[simp] theorem jsMax_fin_posInf (a : ℝ) : jsMax (fin a) posInf = posInf := rfl

@[simp] theorem jsMin_fin_fin (a b : ℝ) : jsMin (fin a) (fin b) = fin (min a b) := rfl

@[simp] theorem jsMin_fin_nan (a : ℝ) : jsMin (fin a) nan = nan := rfl

@[simp] theorem jsMin_fin_posInf (a : ℝ) : jsMin (fin a) posInf = fin a := rfl

@[simp] theorem jsMin_fin_negInf (a : ℝ) : jsMin (fin a) negInf = negInf := rfl

/-- Whatever `Math.min(100, v)` returns, when that result is an ordinary
number it is at most 100; NaN and `-Infinity` results fall outside this. -/
theorem jsMin100_fin_le {v : JsVal} {x : ℝ} (h : jsMin (fin 100) v = fin x) :
    x ≤ 100 := by
  cases v with
  | nan => exact absurd (jsMin_fin_nan 100 ▸ h) (fun hc => JsVal.noConfusion hc)
  | posInf =>
      rw [jsMin_fin_posInf] at h
      injection h with h2
      rw [← h2]
  | negInf => exact absurd (jsMin_fin_negInf 100 ▸ h) (fun hc => JsVal.noConfusion hc)
  | fin b =>
      rw [jsMin_fin_fin] at h
      injection h with h2
      rw [← h2]
      exact min_le_left _ _

@[simp] theorem jsPos_fin (a : ℝ) : jsPos (fin a) ↔ 0 < a := Iff.rfl

@[simp] theorem jsPos_nan : ¬ jsPos nan := fun h => h

@[simp] theorem jsRoundV_fin (a : ℝ) : jsRoundV (fin a) = fin ((⌊a + 1/2⌋ : ℤ) : ℝ) := rfl

/-- The clamp `Math.min(100, Math.max(0, s))` always yields a finite value
or NaN, whatever `s` is. -/
theorem clamp_isFinOrNan (s : JsVal) :
    isFinOrNan (jsMin (fin 100) (jsMax (fin 0) s)) := by
  cases s with
  | nan => exact Or.inr rfl
  | posInf => exact Or.inl ⟨100, rfl⟩
  | negInf => exact Or.inl ⟨min 100 0, rfl⟩
  | fin a => exact Or.inl ⟨min 100 (max 0 a), rfl⟩

/-- The clamp of a finite value lies in `[0, 100]`. -/
theorem clamp_fin_mem (a : ℝ) :
    jsMin (fin 100) (jsMax (fin 0) (fin a)) = fin (min 100 (max 0 a)) ∧
      0 ≤ min 100 (max 0 a) ∧ min 100 (max 0 a) ≤ 100 := by
  refine ⟨rfl, le_min (by norm_num) (le_max_left 0 a), min_le_left _ _⟩

end JsVal

open JsVal

/-- Claim C2, amended: for every water history and weather series, the
history-based water-efficiency score of a history ending in application `u`
depends only on `u` and equals 100 times 0.5 on same-day rain, times 0.7 on
previous-day rain, times the temperature factor — which, amending the
claim, fires only when the same-day observation's temperature is nonzero
(the JS truthiness guard `if (dayWeather?.temp)`); and the concrete
same-day Heavy Rain / prior-day Rain / temp 20 case scores exactly 35. -/
theorem waterEfficiency_latest_formula :
    (∀ (h : List WaterUsage) (u : WaterUsage) (wd : List WeatherData),
      calculateWaterEfficiency (h ++ [u]) wd =
        100 * (if rainOpt (findWeatherOn wd u.date) then 0.5 else 1) *
          (if rainOpt (findWeatherOn wd (u.date - 86400000)) then 0.7 else 1) *
          tempFactorAmended (findWeatherOn wd u.date)) ∧
    calculateWaterEfficiency [⟨5, 86400000⟩]
      [⟨86400000, 20, "Heavy Rain"⟩, ⟨0, 20, "Rain"⟩] = 35 := by
  constructor
  · intro h u wd
    rw [calculateWaterEfficiency, List.getLast?_concat]
    rcases hd : findWeatherOn wd u.date with _ | w
    · simp only [calculateWaterEfficiencySingle, hd, tempFactorAmended]
      split_ifs <;> ring
    · simp only [calculateWaterEfficiencySingle, hd, tempFactorAmended]
      split_ifs <;> ring
  · have h1 : hasRain "Heavy Rain" = true := by decide
    have h2 : hasRain "Rain" = true := by decide
    have e1 : ((86400000 : ℤ) == (86400000 : ℤ)) = true := by decide
    have e2 : ((86400000 : ℤ) == (0 : ℤ)) = false := by decide
    have e3 : ((0 : ℤ) == (0 : ℤ)) = true := by decide
    norm_num [calculateWaterEfficiency, calculateWaterEfficiencySingle, findWeatherOn,
      rainOpt, h1, h2, e1, e2, e3, List.find?]

/-- Claim C2 is false as stated: a same-day observation with temperature 0
(which is below 10) gets no 0.95 factor, because `dayWeather?.temp` is
falsy; the code returns 100 where the claim computes 95. -/
theorem waterEfficiency_claim_counterexample :
    calculateWaterEfficiency [⟨5, 0⟩] [⟨0, 0, "Clear"⟩] = 100 ∧
      waterSpecClaim ⟨5, 0⟩ [⟨0, 0, "Clear"⟩] = 95 ∧ (100 : ℚ) ≠ 95 := by
  have h1 : hasRain "Clear" = false := by decide
  have e1 : ((0 : ℤ) == (0 : ℤ)) = true := by decide
  have e2 : ((0 : ℤ) == (-86400000 : ℤ)) = false := by decide
  refine ⟨?_, ?_, by norm_num⟩
  · norm_num [calculateWaterEfficiency, calculateWaterEfficiencySingle, findWeatherOn,
      rainOpt, h1, e1, e2, List.find?]
  · norm_num [waterSpecClaim, tempFactorClaim, findWeatherOn, rainOpt, h1, e1, e2, List.find?]

/-- Claim C8, amended: the soil-quality score is the clamp to [0,100] of
70, plus `organicMatter * 5` when that attribute is present and nonzero,
minus `|soilPH - 6.5| * 5` when the pH is present and nonzero (amending the
claim, which asserted the penalty also for a present pH of 0), plus
`min 15 (rotationCount * 5)`. -/
theorem soilQuality_formula (farm : Farm) :
    calculateSoilQualityScore farm =
      soilSpecAmended farm.organicMatter farm.soilPH farm.rotationHistory.length := by
  rcases farm with ⟨fid, wh, fh, hh, rh, om, ph⟩
  rcases om with _ | v <;> rcases ph with _ | p <;>
    simp only [calculateSoilQualityScore, soilSpecAmended] <;>
    rcases rh with _ | ⟨r, rs⟩ <;>
    split_ifs <;> simp_all

/-- Claim C8 is false as stated: with a present pH of exactly 0 the code
skips the pH penalty (JS truthiness) and returns 70, while the claimed
formula subtracts `|0 - 6.5| * 5` and yields 37.5. -/
theorem soilQuality_claim_counterexample :
    calculateSoilQualityScore ⟨0, [], [], [], [], none, some 0⟩ = 70 ∧
      soilSpecClaim none (some 0) 0 = 75 / 2 ∧ (70 : ℚ) ≠ 75 / 2 := by
  refine ⟨?_, ?_, by norm_num⟩
  · norm_num [calculateSoilQualityScore]
  · norm_num [soilSpecClaim, abs]

/-- Claim C7: for every goal whose deadline year is the selected year, the
recomputed progress follows the case-insensitive title keyword cascade
(revenue/income, then cost/expense, then savings) with exactly the claimed
`min`/`max` formulas, and every other goal is returned entirely unchanged. -/
theorem updateGoalProgress_spec (goals : List FinancialGoal) (selectedYear : ℤ)
    (ti te np : ℚ) :
    updateGoalProgress goals selectedYear ti te np =
      goals.map (fun g =>
        if g.deadlineYear = selectedYear then
          { g with progress := goalProgressSpec g ti te np }
        else g) := by
  unfold updateGoalProgress
  refine List.map_congr_left (fun g _ => ?_)
  simp only [goalProgressSpec, beq_iff_eq]
  split_ifs <;> rfl

/-- Claim C9, amended: every goal returned by the progress update is either
an unchanged input goal (deadline outside the selected year) or has a
recomputed progress that never exceeds 100 whenever it is an ordinary
number (the `Math.min` upper clamp).  The claimed lower bound 0 is false —
a savings-type goal with negative net profit receives negative progress —
and with a zero target amount the unguarded division can make the progress
NaN or `-Infinity` rather than a number at all. -/
theorem updatedGoals_progress_le_100 (goals : List FinancialGoal) (selectedYear : ℤ)
    (ti te np : ℚ) (g' : FinancialGoal)
    (hg : g' ∈ updateGoalProgress goals selectedYear ti te np) :
    g' ∈ goals ∨ ∀ x : ℝ, g'.progress = .fin x → x ≤ 100 := by
  rw [updateGoalProgress, List.mem_map] at hg
  obtain ⟨g, hmem, hEq⟩ := hg
  by_cases hy : (g.deadlineYear == selectedYear) = true
  · right
    subst hEq
    simp only [hy, if_true]
    split_ifs <;> exact fun x hx => jsMin100_fin_le hx
  · left
    rw [if_neg hy] at hEq
    exact hEq ▸ hmem

theorem updatedGoals_progress_le_100_witness :
    ∃ g' ∈ updateGoalProgress
        [⟨1, "Equipment Purchase Fund", 200, 2024, .fin 0⟩] 2024 500 0 500,
      g' ∈ ([⟨1, "Equipment Purchase Fund", 200, 2024, .fin 0⟩] : List FinancialGoal) ∨
        ∀ x : ℝ, g'.progress = .fin x → x ≤ 100 := by
  have hmem : ∃ g' ∈ updateGoalProgress
      [⟨1, "Equipment Purchase Fund", 200, 2024, .fin 0⟩] 2024 500 0 500, True := by
    rw [updateGoalProgress]
    exact ⟨_, List.mem_map_of_mem _ (List.mem_singleton.mpr rfl), trivial⟩
  obtain ⟨g', hg, -⟩ := hmem
  exact ⟨g', hg, updatedGoals_progress_le_100
    [⟨1, "Equipment Purchase Fund", 200, 2024, .fin 0⟩] 2024 500 0 500 g' hg⟩

/-- Claim C9 is false as stated: a savings goal of 100 in a year whose only
entry is a 50 expense gets progress `Math.min(100, (-50/100)*100) = -50`,
a negative number; and a savings goal with target amount 0 against an
all-zero summary gets progress `Math.min(100, (0/0)*100) = NaN`, not a
number in `[0, 100]` at all. -/
theorem updatedGoals_progress_claim_counterexample :
    updateGoalProgress [⟨1, "Equipment Purchase Fund", 100, 2024, .fin 0⟩] 2024
        (totalIncome [⟨1, 1, 2024, 0, "Repairs", 50, .expense⟩] 2024)
        (totalExpenses [⟨1, 1, 2024, 0, "Repairs", 50, .expense⟩] 2024)
        (netProfit [⟨1, 1, 2024, 0, "Repairs", 50, .expense⟩] 2024) =
      [⟨1, "Equipment Purchase Fund", 100, 2024, .fin (-50)⟩] ∧
    updateGoalProgress [⟨1, "Equipment Purchase Fund", 0, 2024, .fin 0⟩] 2024 0 0 0 =
      [⟨1, "Equipment Purchase Fund", 0, 2024, .nan⟩] ∧
    (-50 : ℝ) < 0 := by
  have c1 : strContains "Equipment Purchase Fund" "revenue" = false := by decide
  have c2 : strContains "Equipment Purchase Fund" "income" = false := by decide
  have c3 : strContains "Equipment Purchase Fund" "cost" = false := by decide
  have c4 : strContains "Equipment Purchase Fund" "expense" = false := by decide
  have b1 : (EntryCategory.expense == EntryCategory.income) = false := by decide
  have b2 : (EntryCategory.expense == EntryCategory.expense) = true := by decide
  have hti : totalIncome [⟨1, 1, 2024, 0, "Repairs", 50, .expense⟩] 2024 = 0 := by
    norm_num [totalIncome, yearData, List.filter, b1, b2]
  have hte : totalExpenses [⟨1, 1, 2024, 0, "Repairs", 50, .expense⟩] 2024 = 50 := by
    norm_num [totalExpenses, yearData, List.filter, b1, b2]
  refine ⟨?_, ?_, by norm_num⟩
  · rw [netProfit, hti, hte]
    have hval : jsMin (.fin 100)
        (jsMul (jsDiv (.fin ((-50 : ℝ))) (.fin ((100 : ℝ)))) (.fin 100)) =
        .fin (-50) := by
      rw [jsDiv_fin_fin _ (by norm_num : (100 : ℝ) ≠ 0), jsMul_fin_fin, jsMin_fin_fin]
      congr 1
      rw [min_eq_right (by norm_num)]
      norm_num
    norm_num [updateGoalProgress, c1, c2, c3, c4]
    exact hval
  · norm_num [updateGoalProgress, c1, c2, c3, c4]

/-- Claim C6, amended: when the selected year's expenses total zero the
summary reports ROI as the guarded numeric fallback 0 — no division error
and no Infinity — rather than an undefined/N-A sentinel. -/
theorem roi_zero_when_no_expenses (entries : List FinancialEntry) (selectedYear : ℤ)
    (h : totalExpenses entries selectedYear = 0) : roi entries selectedYear = 0 := by
  rw [roi, h]
  norm_num

theorem roi_zero_when_no_expenses_witness :
    roi [⟨1, 1, 2024, 0, "Sales", 500, .income⟩] 2024 = 0 :=
  roi_zero_when_no_expenses [⟨1, 1, 2024, 0, "Sales", 500, .income⟩] 2024 (by
    have b1 : (EntryCategory.income == EntryCategory.expense) = false := by decide
    norm_num [totalExpenses, yearData, List.filter, b1])

/-- Claim C6 is false as stated: with income 500 and zero expenses the code
reports the number 0, while the claimed contract reports a non-numeric
undefined/N-A sentinel (`none` in the spec-side reading). -/
theorem roi_claim_counterexample :
    roi [⟨1, 1, 2024, 0, "Sales", 500, .income⟩] 2024 = 0 ∧
      roiSpecClaim [⟨1, 1, 2024, 0, "Sales", 500, .income⟩] 2024 = none := by
  have b1 : (EntryCategory.income == EntryCategory.expense) = false := by decide
  have hte : totalExpenses [⟨1, 1, 2024, 0, "Sales", 500, .income⟩] 2024 = 0 := by
    norm_num [totalExpenses, yearData, List.filter, b1]
  constructor
  · rw [roi, hte]
    norm_num
  · rw [roiSpecClaim, hte]
    norm_num

/-- Permutation invariance of a filtered amount sum, the shape every
financial rollup reduces to. -/
theorem filter_amount_sum_perm {l₁ l₂ : List FinancialEntry} (h : l₁.Perm l₂)
    (p : FinancialEntry → Bool) :
    ((l₁.filter p).map (·.amount)).sum = ((l₂.filter p).map (·.amount)).sum :=
  ((h.filter p).map _).sum_eq

/-- Claim C5: every component of the financial year summary — income and
expense totals, net profit, ROI, the per-farm and per-month rollups, and
the per-type breakdown maps — is invariant under permutation of the entry
list. -/
theorem summarizeFinancials_perm (e₁ e₂ : List FinancialEntry) (selectedYear : ℤ)
    (farms : List Farm) (h : e₁.Perm e₂) :
    totalIncome e₁ selectedYear = totalIncome e₂ selectedYear ∧
    totalExpenses e₁ selectedYear = totalExpenses e₂ selectedYear ∧
    netProfit e₁ selectedYear = netProfit e₂ selectedYear ∧
    roi e₁ selectedYear = roi e₂ selectedYear ∧
    farmSummaries farms e₁ selectedYear = farmSummaries farms e₂ selectedYear ∧
    monthlyData e₁ selectedYear = monthlyData e₂ selectedYear ∧
    (∀ t, incomeByType e₁ selectedYear t = incomeByType e₂ selectedYear t) ∧
    (∀ t, expensesByType e₁ selectedYear t = expensesByType e₂ selectedYear t) := by
  have hyd : (yearData e₁ selectedYear).Perm (yearData e₂ selectedYear) := by
    unfold yearData
    exact h.filter _
  have hti : totalIncome e₁ selectedYear = totalIncome e₂ selectedYear :=
    filter_amount_sum_perm hyd _
  have hte : totalExpenses e₁ selectedYear = totalExpenses e₂ selectedYear :=
    filter_amount_sum_perm hyd _
  refine ⟨hti, hte, ?_, ?_, ?_, ?_, ?_, ?_⟩
  · rw [netProfit, netProfit, hti, hte]
  · rw [roi, roi, hti, hte]
  · refine List.map_congr_left (fun farm _ => ?_)
    dsimp only
    have hfe : ((yearData e₁ selectedYear).filter (fun e => e.farmId == farm.id)).Perm
        ((yearData e₂ selectedYear).filter (fun e => e.farmId == farm.id)) :=
      hyd.filter _
    rw [filter_amount_sum_perm hfe (fun e => e.category == .income),
      filter_amount_sum_perm hfe (fun e => e.category == .expense)]
  · refine List.map_congr_left (fun month _ => ?_)
    dsimp only
    have hme : ((yearData e₁ selectedYear).filter (fun e => e.month == month)).Perm
        ((yearData e₂ selectedYear).filter (fun e => e.month == month)) :=
      hyd.filter _
    rw [filter_amount_sum_perm hme (fun e => e.category == .income),
      filter_amount_sum_perm hme (fun e => e.category == .expense)]
  · exact fun t => filter_amount_sum_perm hyd _
  · exact fun t => filter_amount_sum_perm hyd _

theorem summarizeFinancials_perm_witness :
    totalIncome [⟨1, 1, 2024, 0, "Sales", 500, .income⟩, ⟨2, 1, 2024, 1, "Seeds", 80, .expense⟩]
        2024 =
      totalIncome [⟨2, 1, 2024, 1, "Seeds", 80, .expense⟩, ⟨1, 1, 2024, 0, "Sales", 500, .income⟩]
        2024 :=
  (summarizeFinancials_perm _ _ 2024 []
    (List.Perm.swap ⟨2, 1, 2024, 1, "Seeds", 80, .expense⟩
      ⟨1, 1, 2024, 0, "Sales", 500, .income⟩ [])).1

theorem posCount_nil : posCount [] = 0 := rfl

open Classical in
theorem posCount_cons (v : JsVal) (l : List JsVal) :
    posCount (v :: l) = if jsPos v then posCount l + 1 else posCount l := rfl

theorem posCount_all_pos {l : List JsVal} (h : ∀ v ∈ l, jsPos v) :
    posCount l = l.length := by
  induction l with
  | nil => rfl
  | cons v t ih =>
      rw [posCount_cons, if_pos (h v (List.mem_cons_self v t)), List.length_cons,
        ih (fun w hw => h w (List.mem_cons_of_mem v hw))]

/-- The organic scorer never goes below 40 on non-negative fertilizer
amounts: the only subtraction is the chemical penalty, capped at 30 below
the base 70. -/
theorem organicScore_ge_40 (farm : Farm)
    (hf : ∀ f ∈ farm.fertilizerHistory, 0 ≤ f.amount) :
    40 ≤ calculateOrganicScore farm := by
  have hOAmt : 0 ≤ ((farm.fertilizerHistory.filter isOrganicFertilizer).map (·.amount)).sum := by
    apply List.sum_nonneg
    intro x hx
    obtain ⟨f, hf1, rfl⟩ := List.mem_map.mp hx
    exact hf f (List.mem_of_mem_filter hf1)
  have hTotNN : ∀ a ∈ farm.fertilizerHistory.map (·.amount), 0 ≤ a := by
    intro a ha
    obtain ⟨f, hf1, rfl⟩ := List.mem_map.mp ha
    exact hf f hf1
  have hTot0 : 0 ≤ (farm.fertilizerHistory.map (·.amount)).sum := List.sum_nonneg hTotNN
  have hLe : ((farm.fertilizerHistory.filter isOrganicFertilizer).map (·.amount)).sum ≤
      (farm.fertilizerHistory.map (·.amount)).sum :=
    List.Sublist.sum_le_sum ((List.filter_sublist _).map _) hTotNN
  have hq0 : 0 ≤ ((farm.fertilizerHistory.filter isOrganicFertilizer).map (·.amount)).sum /
      (farm.fertilizerHistory.map (·.amount)).sum := div_nonneg hOAmt hTot0
  have hm1 : min (30 : ℚ) (((farm.fertilizerHistory.map (·.amount)).sum -
      ((farm.fertilizerHistory.filter isOrganicFertilizer).map (·.amount)).sum) / 1000 * 10) ≤ 30 :=
    min_le_left _ _
  have hm2 : (0 : ℚ) ≤ min 10 ((farm.rotationHistory.length : ℚ) * 2) :=
    le_min (by norm_num) (by positivity)
  unfold calculateOrganicScore
  dsimp only
  refine le_min (by norm_num) (le_trans ?_ (le_max_right _ _))
  split_ifs <;> linarith

/-- Claim C10: with non-negative fertilizer amounts every farm's organic
score is at least 40 (base 70, non-negative bonuses, chemical penalty
capped at 30), hence strictly positive, so the aggregator counts the
organic metric for every farm and never treats it as missing. -/
theorem organicScore_counted (farms : List Farm) (weatherData : List WeatherData)
    (hf : ∀ farm ∈ farms, ∀ f ∈ farm.fertilizerHistory, 0 ≤ f.amount) :
    (∀ farm ∈ farms, 40 ≤ calculateOrganicScore farm) ∧
      keyCount .organic farms weatherData = farms.length := by
  refine ⟨fun farm hmem => organicScore_ge_40 farm (hf farm hmem), ?_⟩
  rw [keyCount, keyVals]
  rw [posCount_all_pos, List.length_map]
  intro v hv
  obtain ⟨farm, hmem, rfl⟩ := List.mem_map.mp hv
  have h40 := organicScore_ge_40 farm (hf farm hmem)
  simp only [jsPos_fin]
  exact_mod_cast lt_of_lt_of_le (by norm_num) h40

theorem organicScore_counted_witness :
    (∀ farm ∈ ([⟨0, [], [], [], [], none, none⟩] : List Farm),
      40 ≤ calculateOrganicScore farm) ∧
      keyCount .organic [⟨0, [], [], [], [], none, none⟩] [] = 1 :=
  organicScore_counted [⟨0, [], [], [], [], none, none⟩] []
    (by intro farm hm f hf2; simp at hm; subst hm; simp at hf2)

theorem waterEfficiencySingle_bounds (u : WaterUsage) (weatherData : List WeatherData) :
    0 ≤ calculateWaterEfficiencySingle u weatherData ∧
      calculateWaterEfficiencySingle u weatherData ≤ 100 := by
  unfold calculateWaterEfficiencySingle
  rcases findWeatherOn weatherData u.date with _ | w <;>
    dsimp only <;> split_ifs <;> norm_num

theorem waterEfficiency_bounds (waterHistory : List WaterUsage)
    (weatherData : List WeatherData) :
    0 ≤ calculateWaterEfficiency waterHistory weatherData ∧
      calculateWaterEfficiency waterHistory weatherData ≤ 100 := by
  rw [calculateWaterEfficiency]
  rcases waterHistory.getLast? with _ | u
  · norm_num
  · exact waterEfficiencySingle_bounds u weatherData

theorem organicScore_bounds (farm : Farm) :
    0 ≤ calculateOrganicScore farm ∧ calculateOrganicScore farm ≤ 100 := by
  unfold calculateOrganicScore
  dsimp only
  exact ⟨le_min (by norm_num) (le_max_left _ _), min_le_left _ _⟩

theorem soilQuality_bounds (farm : Farm) :
    0 ≤ calculateSoilQualityScore farm ∧ calculateSoilQualityScore farm ≤ 100 := by
  unfold calculateSoilQualityScore
  dsimp only
  exact ⟨le_max_left _ _, max_le (by norm_num) (min_le_left _ _)⟩

theorem rotationScore_bounds (farm : Farm) :
    0 ≤ calculateRotationScore farm ∧ calculateRotationScore farm ≤ 100 := by
  unfold calculateRotationScore
  split_ifs
  · norm_num
  · dsimp only
    refine ⟨le_min (by norm_num) (add_nonneg (le_min (by norm_num) (by positivity))
      (le_min (by norm_num) (by positivity))), min_le_left _ _⟩

theorem jsAdd_negInf_fin (a : ℝ) : jsAdd .negInf (.fin a) = .negInf := rfl

theorem jsSub_negInf_fin5 : jsSub .negInf (.fin 5) = .negInf := rfl

theorem penalties_foldl_fin (l : List Harvest) (weatherData : List WeatherData) (x : ℝ) :
    ∃ y : ℝ, l.foldl
      (fun s h => if rainOpt (findWeatherOn weatherData h.date) then jsSub s (.fin 5) else s)
      (.fin x) = .fin y := by
  induction l generalizing x with
  | nil => exact ⟨x, rfl⟩
  | cons h t ih =>
      rw [List.foldl_cons]
      by_cases hc : rainOpt (findWeatherOn weatherData h.date) = true
      · rw [if_pos hc, jsSub_fin_fin]
        exact ih (x - 5)
      · rw [if_neg hc]
        exact ih x

theorem penalties_foldl_negInf (l : List Harvest) (weatherData : List WeatherData) :
    l.foldl
      (fun s h => if rainOpt (findWeatherOn weatherData h.date) then jsSub s (.fin 5) else s)
      .negInf = .negInf := by
  induction l with
  | nil => rfl
  | cons h t ih =>
      rw [List.foldl_cons]
      by_cases hc : rainOpt (findWeatherOn weatherData h.date) = true
      · rw [if_pos hc]
        exact ih
      · rw [if_neg hc]
        exact ih

/-- Range analysis of the harvest score computation after the mean `A` and
population variance `V` of the yields are known: any mean other than an
exactly-zero one leads to a finite clamped value, and a zero mean with
positive variance collapses to 0 through a `-Infinity` score. -/
theorem harvest_core_range (l : List Harvest) (weatherData : List WeatherData)
    (A V : ℚ) (hcase : (A = 0 ∧ 0 < V) ∨ A ≠ 0) :
    inRange01 (jsMin (.fin 100) (jsMax (.fin 0) (l.foldl
      (fun s h => if rainOpt (findWeatherOn weatherData h.date) then jsSub s (.fin 5) else s)
      (jsSub (.fin 100) (jsMul (jsDiv (.fin (Real.sqrt (V : ℝ))) (.fin ((A : ℚ) : ℝ)))
        (.fin 20)))))) := by
  rcases hcase with ⟨hA, hV⟩ | hA
  · have hsq : 0 < Real.sqrt ((V : ℚ) : ℝ) := Real.sqrt_pos.mpr (by exact_mod_cast hV)
    have h1 : jsDiv (.fin (Real.sqrt ((V : ℚ) : ℝ))) (.fin ((A : ℚ) : ℝ)) = .posInf := by
      rw [hA]
      push_cast
      exact jsDiv_fin_pos_zero hsq
    rw [h1, jsMul_posInf_fin_pos (by norm_num), jsSub_fin_posInf,
      penalties_foldl_negInf, jsMax_fin_negInf, jsMin_fin_fin]
    exact ⟨min 100 0, rfl, by norm_num, by norm_num⟩
  · have hA2 : ((A : ℚ) : ℝ) ≠ 0 := by exact_mod_cast hA
    rw [jsDiv_fin_fin _ hA2, jsMul_fin_fin, jsSub_fin_fin]
    obtain ⟨y, hy⟩ := penalties_foldl_fin l weatherData
      (100 - Real.sqrt ((V : ℚ) : ℝ) / ((A : ℚ) : ℝ) * 20)
    rw [hy, jsMax_fin_fin, jsMin_fin_fin]
    exact ⟨min 100 (max 0 y), rfl, le_min (by norm_num) (le_max_left 0 y), min_le_left _ _⟩

/-- The harvest scorer returns a finite value in range whenever the yield
amounts are not all zero (or the history is empty). -/
theorem harvestEfficiency_inRange (farm : Farm) (weatherData : List WeatherData)
    (h : farm.harvestHistory = [] ∨ ∃ hv ∈ farm.harvestHistory, hv.amount ≠ 0) :
    inRange01 (calculateHarvestEfficiency farm weatherData) := by
  rcases h with hemp | ⟨hv, hmem, hne⟩
  · rw [calculateHarvestEfficiency, if_pos hemp]
    exact ⟨0, rfl, by norm_num, by norm_num⟩
  · have hne2 : farm.harvestHistory ≠ [] := List.ne_nil_of_mem hmem
    rw [calculateHarvestEfficiency, if_neg hne2]
    dsimp only
    apply harvest_core_range
    have hlen : 0 < (farm.harvestHistory.map (·.amount)).length := by
      rw [List.length_map]
      exact List.length_pos.mpr hne2
    by_cases hsum : (farm.harvestHistory.map (·.amount)).sum = 0
    · left
      have havg : ((farm.harvestHistory.map (·.amount)).sum /
          ((farm.harvestHistory.map (·.amount)).length : ℚ)) = 0 := by
        rw [hsum, zero_div]
      refine ⟨havg, ?_⟩
      apply div_pos
      · have hmem2 : (hv.amount - (farm.harvestHistory.map (·.amount)).sum /
            ((farm.harvestHistory.map (·.amount)).length : ℚ)) ^ 2 ∈
            ((farm.harvestHistory.map (·.amount)).map
              (fun y => (y - (farm.harvestHistory.map (·.amount)).sum /
                ((farm.harvestHistory.map (·.amount)).length : ℚ)) ^ 2)) :=
          List.mem_map_of_mem _ (List.mem_map_of_mem _ hmem)
        have hterm : 0 < (hv.amount - (farm.harvestHistory.map (·.amount)).sum /
            ((farm.harvestHistory.map (·.amount)).length : ℚ)) ^ 2 := by
          rw [havg, sub_zero]
          positivity
        refine lt_of_lt_of_le hterm (List.single_le_sum ?_ _ hmem2)
        intro x hx
        obtain ⟨y, _, rfl⟩ := List.mem_map.mp hx
        positivity
      · exact_mod_cast hlen
    · right
      exact div_ne_zero hsum (by exact_mod_cast hlen.ne.symm)

/-- Claim C1, amended: the water, organic, soil and rotation scorers return
values in `[0, 100]` on every input; the harvest scorer does too whenever
its history is empty or some yield amount is nonzero, but (amending the
claim) a non-empty all-zero yield history makes it return NaN. -/
theorem scorers_clamped (farm : Farm) (weatherData : List WeatherData) :
    (0 ≤ calculateWaterEfficiency farm.waterHistory weatherData ∧
      calculateWaterEfficiency farm.waterHistory weatherData ≤ 100) ∧
    (0 ≤ calculateOrganicScore farm ∧ calculateOrganicScore farm ≤ 100) ∧
    (0 ≤ calculateSoilQualityScore farm ∧ calculateSoilQualityScore farm ≤ 100) ∧
    (0 ≤ calculateRotationScore farm ∧ calculateRotationScore farm ≤ 100) ∧
    ((farm.harvestHistory = [] ∨ ∃ hv ∈ farm.harvestHistory, hv.amount ≠ 0) →
      inRange01 (calculateHarvestEfficiency farm weatherData)) :=
  ⟨waterEfficiency_bounds farm.waterHistory weatherData, organicScore_bounds farm,
    soilQuality_bounds farm, rotationScore_bounds farm,
    harvestEfficiency_inRange farm weatherData⟩

theorem scorers_clamped_witness :
    inRange01 (calculateHarvestEfficiency ⟨0, [], [], [⟨10, 0⟩], [], none, none⟩ []) :=
  (scorers_clamped ⟨0, [], [], [⟨10, 0⟩], [], none, none⟩ []).2.2.2.2
    (Or.inr ⟨⟨10, 0⟩, List.mem_singleton.mpr rfl, by norm_num⟩)

/-- Claim C1 is false as stated: a single harvest of amount 0 drives the
coefficient-of-variation division to `0/0 = NaN`, which passes through the
`Math.min`/`Math.max` clamp unchanged, so the scorer returns NaN — not a
value in `[0, 100]`. -/
theorem scorers_clamped_counterexample :
    calculateHarvestEfficiency ⟨0, [], [], [⟨0, 0⟩], [], none, none⟩ [] = .nan ∧
      ¬ inRange01 (calculateHarvestEfficiency ⟨0, [], [], [⟨0, 0⟩], [], none, none⟩ []) := by
  have h : calculateHarvestEfficiency ⟨0, [], [], [⟨0, 0⟩], [], none, none⟩ [] = .nan := by
    rw [calculateHarvestEfficiency, if_neg (by simp)]
    dsimp only
    norm_num [findWeatherOn, rainOpt, List.find?, Real.sqrt_zero, jsDiv, jsMul, jsSub,
      jsAdd, jsNeg, jsMin, jsMax]
  refine ⟨h, ?_⟩
  rw [h]
  rintro ⟨x, hx, -, -⟩
  exact JsVal.noConfusion hx

theorem posSum_nil : posSum [] = .fin 0 := rfl

open Classical in
theorem posSum_cons (v : JsVal) (l : List JsVal) :
    posSum (v :: l) = if jsPos v then jsAdd v (posSum l) else posSum l := rfl

theorem posSum_isFin {l : List JsVal} (h : ∀ v ∈ l, isFinOrNan v) :
    ∃ x : ℝ, posSum l = .fin x := by
  induction l with
  | nil => exact ⟨0, rfl⟩
  | cons v t ih =>
      obtain ⟨x, hx⟩ := ih (fun w hw => h w (List.mem_cons_of_mem v hw))
      by_cases hv : jsPos v
      · rcases h v (List.mem_cons_self v t) with ⟨a, rfl⟩ | rfl
        · exact ⟨a + x, by rw [posSum_cons, if_pos hv, hx, jsAdd_fin_fin]⟩
        · exact absurd hv jsPos_nan
      · exact ⟨x, by rw [posSum_cons, if_neg hv, hx]⟩

theorem harvestEfficiency_finOrNan (farm : Farm) (weatherData : List WeatherData) :
    isFinOrNan (calculateHarvestEfficiency farm weatherData) := by
  rw [calculateHarvestEfficiency]
  split_ifs
  · exact Or.inl ⟨0, rfl⟩
  · exact clamp_isFinOrNan _

theorem keyVals_finOrNan (k : MetricKey) (farms : List Farm)
    (weatherData : List WeatherData) :
    ∀ v ∈ keyVals k farms weatherData, isFinOrNan v := by
  intro v hv
  cases k <;> rw [keyVals] at hv <;> obtain ⟨farm, -, rfl⟩ := List.mem_map.mp hv
  case harvest => exact harvestEfficiency_finOrNan farm weatherData
  all_goals exact Or.inl ⟨_, rfl⟩

/-- Claim C3: when exactly one of the five sub-metrics has data (is
positive for at least one farm) over a non-empty farm list and weather
series, the aggregator renormalizes that metric's weight to 1 and the
reported overall score equals the reported value of that sub-metric. -/
theorem aggregator_single_metric (farms : List Farm) (weatherData : List WeatherData)
    (k : MetricKey) (hf : farms ≠ []) (hw : weatherData ≠ [])
    (hk : 0 < keyCount k farms weatherData)
    (hothers : ∀ j, j ≠ k → keyCount j farms weatherData = 0) :
    ∃ m, calculateSustainabilityMetrics farms weatherData = some m ∧
      m.overallScore = keyField k m := by
  have hno : ∀ j, j ≠ k → ¬ 0 < keyCount j farms weatherData := by
    intro j hj
    rw [hothers j hj]
    exact lt_irrefl 0
  obtain ⟨x, hx⟩ := posSum_isFin (keyVals_finOrNan k farms weatherData)
  have hcnt : ((keyCount k farms weatherData : ℕ) : ℝ) ≠ 0 :=
    Nat.cast_ne_zero.mpr hk.ne.symm
  have hav : keyAvg k farms weatherData =
      .fin (x / (keyCount k farms weatherData : ℝ)) := by
    rw [keyAvg, if_pos hk, hx, jsDiv_fin_fin _ hcnt]
  have hwpos : 0 < keyWeight k ∧ keyWeight k < 1 := by
    cases k <;> norm_num [keyWeight]
  have htw : totalWeightUsed farms weatherData = keyWeight k := by
    cases k <;>
      simp only [totalWeightUsed] <;>
      rw [if_pos hk] <;>
      rw [if_neg (hno _ (by decide)), if_neg (hno _ (by decide)),
        if_neg (hno _ (by decide)), if_neg (hno _ (by decide))] <;>
      simp [keyWeight]
  have hraw : overallRaw farms weatherData =
      .fin (x / (keyCount k farms weatherData : ℝ) * keyWeight k) := by
    cases k <;>
      simp only [overallRaw, keyTerm] <;>
      rw [if_pos hk] <;>
      rw [if_neg (hno _ (by decide)), if_neg (hno _ (by decide)),
        if_neg (hno _ (by decide)), if_neg (hno _ (by decide))] <;>
      rw [hav, jsMul_fin_fin] <;>
      simp [jsAdd_fin_fin]
  have hov : overallScoreVal farms weatherData = keyAvg k farms weatherData := by
    rw [overallScoreVal, htw, hraw, if_pos hwpos,
      jsDiv_fin_fin _ hwpos.1.ne.symm, mul_div_cancel_right₀ _ hwpos.1.ne.symm, hav]
  have hguard : ¬ (farms = [] ∨ weatherData = []) := by
    simp [hf, hw]
  rw [calculateSustainabilityMetrics, if_neg hguard]
  refine ⟨_, rfl, ?_⟩
  cases k <;> simp only [keyField] <;> rw [hov]

theorem aggregator_single_metric_witness :
    ∃ m, calculateSustainabilityMetrics [⟨0, [], [], [], [], none, some 25⟩]
        [⟨0, 20, "Clear"⟩] = some m ∧ m.overallScore = keyField .organic m := by
  have horg : calculateOrganicScore ⟨0, [], [], [], [], none, some 25⟩ = 70 := by
    norm_num [calculateOrganicScore]
  have hsoil : calculateSoilQualityScore ⟨0, [], [], [], [], none, some 25⟩ = 0 := by
    norm_num [calculateSoilQualityScore, abs]
  have hwat : calculateWaterEfficiency
      (⟨0, [], [], [], [], none, some 25⟩ : Farm).waterHistory [⟨0, 20, "Clear"⟩] = 0 := rfl
  have hharv : calculateHarvestEfficiency ⟨0, [], [], [], [], none, some 25⟩
      [⟨0, 20, "Clear"⟩] = .fin 0 := by
    rw [calculateHarvestEfficiency, if_pos rfl]
  have hrot : calculateRotationScore ⟨0, [], [], [], [], none, some 25⟩ = 0 := by
    rw [calculateRotationScore, if_pos rfl]
  refine aggregator_single_metric _ _ .organic (by simp) (by simp) ?_ ?_
  · rw [keyCount, keyVals, List.map_singleton, horg, posCount_cons,
      if_pos (by rw [jsPos_fin]; norm_num), posCount_nil]
    norm_num
  · intro j hj
    cases j with
    | organic => exact absurd rfl hj
    | water =>
        rw [keyCount, keyVals, List.map_singleton, hwat, posCount_cons,
          if_neg (by rw [jsPos_fin]; norm_num), posCount_nil]
    | harvest =>
        rw [keyCount, keyVals, List.map_singleton, hharv, posCount_cons,
          if_neg (by rw [jsPos_fin]; norm_num), posCount_nil]
    | soil =>
        rw [keyCount, keyVals, List.map_singleton, hsoil, posCount_cons,
          if_neg (by rw [jsPos_fin]; norm_num), posCount_nil]
    | rotation =>
        rw [keyCount, keyVals, List.map_singleton, hrot, posCount_cons,
          if_neg (by rw [jsPos_fin]; norm_num), posCount_nil]

/-- Claim C4: with a non-empty field list and a current-day observation
whose label contains rain, the score card multiplies its weighted base
score by 0.95 before rounding, and by a further 0.95 (0.9025 total) when
the current temperature is above 35 or below 5. -/
theorem scorecard_weather_adjustment (fields : List FarmField) (w : WeatherData)
    (rest : List WeatherData) (hf : fields ≠ [])
    (hrain : hasRain w.weather = true) :
    (¬ (w.temp > 35 ∨ w.temp < 5) →
      scorecardOverallScore fields (w :: rest) =
        some (jsRoundV (jsMul (scorecardBase fields (w :: rest))
          (.fin ((0.95 : ℚ) : ℝ))))) ∧
    ((w.temp > 35 ∨ w.temp < 5) →
      scorecardOverallScore fields (w :: rest) =
        some (jsRoundV (jsMul (scorecardBase fields (w :: rest))
          (.fin ((0.95 * 0.95 : ℚ) : ℝ))))) := by
  have hm1 : weatherMultiplier (w :: rest) =
      if w.temp > 35 ∨ w.temp < 5 then 0.95 * 0.95 else (0.95 : ℚ) := by
    rw [weatherMultiplier]
    dsimp only [List.head?]
    rw [if_pos hrain]
  constructor <;> intro htemp <;>
    rw [scorecardOverallScore, if_neg (by simp [hf]), hm1]
  · rw [if_neg htemp]
  · rw [if_pos htemp]

theorem scorecard_weather_adjustment_witness :
    scorecardOverallScore [⟨1, .fin 1, [], [], []⟩] [⟨0, 20, "Rain"⟩] =
      some (jsRoundV (jsMul (scorecardBase [⟨1, .fin 1, [], [], []⟩] [⟨0, 20, "Rain"⟩])
        (.fin ((0.95 : ℚ) : ℝ)))) :=
  (scorecard_weather_adjustment [⟨1, .fin 1, [], [], []⟩] ⟨0, 20, "Rain"⟩ []
    (by simp) (by decide)).1 (by norm_num)
